import Mathlib

/-!
Verification of the genetic-algorithm optimization engine in
`src/akkudoktoreos/class_optimize.py` (class `optimization_problem`).

The Python code is shallowly embedded: genomes are `List ℤ`, NumPy float
arrays are `List NpF` where `NpF` distinguishes NaN and infinity from
finite rationals (NumPy division by zero emits a RuntimeWarning and
produces NaN or inf instead of raising), and the external collaborators
(the DEAP toolkit, the energy-management simulator, the charge-current
table from `config.py`) are either modelled from the spec or passed in
as explicit parameters.
-/

/-- A NumPy floating-point scalar, as far as this development needs it:
either NaN, positive infinity, or a finite value (modelled exactly as a
rational; float rounding is irrelevant to the claims below, which are
about zeros and NaNs). -/
inductive NpF where
  | nan : NpF
  | inf : NpF
  | val : ℚ → NpF
deriving DecidableEq, Repr

/-- NumPy elementwise division of a nonnegative integer `c` by the integer
`m`: `0/0` is NaN, `c/0` with `c ≠ 0` is infinity (NumPy warns but does
not raise), otherwise the exact quotient. -/
def npDiv (c m : ℤ) : NpF :=
  if m = 0 then (if c = 0 then NpF.nan else NpF.inf)
  else NpF.val ((c : ℚ) / (m : ℚ))

/-- Embedding of `optimization_problem.split_charge_discharge`
(class_optimize.py lines 38-61):
`charge = -np.where(x < 0, x, 0)` followed by `charge = charge / np.max(charge)`
(the division is unconditional), and `discharge = np.where(x > 0, x, 0)`.
`np.max` of the (nonnegative) charge array is modelled as `foldr max 0`;
NumPy would raise on an empty array, a case no claim uses. -/
def split_charge_discharge (discharge_hours_bin : List ℤ) : List NpF × List ℤ :=
  let charge := discharge_hours_bin.map (fun x => if x < 0 then -x else 0)
  let m := charge.foldr max 0
  (charge.map (fun c => npDiv c m),
   discharge_hours_bin.map (fun x => if x > 0 then x else 0))

/-- C1: on an all-non-negative battery-action vector the code divides the
all-zero raw charge vector by `np.max(charge) = 0`; NumPy's `0/0` yields
NaN, so the returned charge vector is `[NaN, NaN]`, not the zero vector,
while the discharge vector is `max(gene, 0)` per position as claimed. -/
theorem split_charge_discharge_all_nonneg_yields_nan :
    split_charge_discharge [0, 1] = ([NpF.nan, NpF.nan], [0, 1]) ∧
      NpF.nan ≠ NpF.val 0 := by
  constructor
  · rfl
  · decide

/-- Embedding of `optimization_problem.split_individual`
(class_optimize.py lines 100-116): the first `prediction_hours` genes,
the genes from `prediction_hours` to `2 * prediction_hours` (Python
slicing pads nothing and truncates silently), and, when the run has a
household appliance, the last gene (`individual[-1]`; on an empty list
Python would raise, modelled as `none`). -/
def split_individual (prediction_hours : ℕ) (haushaltsgeraete : ℕ) (individual : List ℤ) :
    List ℤ × List ℤ × Option ℤ :=
  (individual.take prediction_hours,
   (individual.drop prediction_hours).take prediction_hours,
   if 0 < haushaltsgeraete then individual.getLast? else none)

/-- The pieces of the simulator outcome that `optimization_problem.evaluate`
reads after `evaluate_inner` returns: `o["Gesamtbilanz_Euro"]`,
`o["Gesamt_Verluste"]`, the post-simulation EV state of charge
`ems.eauto.ladezustand_in_prozent()` and the battery energy content
`ems.akku.aktueller_energieinhalt()`. -/
structure SimResult where
  gesamtbilanz : ℚ
  verluste : ℚ
  ev_soc : ℚ
  akku_wh : ℚ
deriving DecidableEq, Repr

/-- Embedding of `optimization_problem.evaluate`
(class_optimize.py lines 190-244). The simulation
(`evaluate_inner`, which drives the external EMS collaborator) is passed
in as `sim : Option SimResult`: `none` models any exception escaping
`evaluate_inner`, caught by the `try`/`except` at lines 201-204. The
returned pair is (fitness, `individual.extra_data`), the latter `none`
when the exception path was taken. Mirrored faithfully from the source:

* `gesamtbilanz = o["Gesamtbilanz_Euro"] * (-1.0 if worst_case else 1.0)`;
* `+ sum(0.01 for i in range(H) if discharge_hours_bin[i] == 0.0)`;
* the SoC penalty is added under `eauto_min_soc - ev_soc <= 0.0`
  (that is the source's condition, lines 222-226), `strafe` per entry of
  `eautocharge_hours_float` (the raw gene slice `individual[H:2H]`) that
  is non-zero;
* `extra_data = (Gesamtbilanz_Euro, Gesamt_Verluste, eauto_min_soc - ev_soc)`;
* `+ max(0, (eauto_min_soc - ev_soc) * strafe) - akku_wh * preis_euro_pro_wh_akku`. -/
def evaluate (prediction_hours : ℕ) (strafe : ℚ) (haushaltsgeraete : ℕ)
    (worst_case : Bool) (eauto_min_soc preis_euro_pro_wh_akku : ℚ)
    (individual : List ℤ) (sim : Option SimResult) : ℚ × Option (ℚ × ℚ × ℚ) :=
  match sim with
  | none => (100000, none)
  | some o =>
    let gesamtbilanz := o.gesamtbilanz * (if worst_case then -1 else 1)
    let s := split_individual prediction_hours haushaltsgeraete individual
    let discharge_hours_bin := s.1
    let eautocharge_hours_float := s.2.1
    let g1 := gesamtbilanz +
      (1 / 100) * ((discharge_hours_bin.filter (fun x => x = 0)).length : ℚ)
    let g2 :=
      if eauto_min_soc - o.ev_soc ≤ 0 then
        g1 + strafe * ((eautocharge_hours_float.filter (fun x => x ≠ 0)).length : ℚ)
      else g1
    let extra := (o.gesamtbilanz, o.verluste, eauto_min_soc - o.ev_soc)
    let restwert_akku := o.akku_wh * preis_euro_pro_wh_akku
    let g3 := g2 + max 0 ((eauto_min_soc - o.ev_soc) * strafe) - restwert_akku
    (g3, some extra)

/-- C2: the source adds the per-hour EV penalty when
`eauto_min_soc - ev_soc <= 0.0`, i.e. exactly when the minimum-SoC
constraint IS satisfied — the opposite of the claimed condition (and of
the source's own comment "Penalty for not meeting the minimum SOC").
Concretely: horizon 1, genome `[1, 3]` (one non-zero EV gene), final EV
SoC 100 against a target of 50 (shortfall −50 ≤ 0, constraint met), all
monetary terms zero — the fitness is 10 (= one `strafe`), where the
claim requires the penalty term to contribute 0. -/
theorem evaluate_penalizes_when_soc_satisfied :
    evaluate 1 10 0 false 50 0 [1, 3]
        (some { gesamtbilanz := 0, verluste := 0, ev_soc := 100, akku_wh := 0 }) =
      (10, some (0, 0, -50)) ∧ (10 : ℚ) ≠ 0 := by
  constructor
  · show (_, _) = _
    norm_num [evaluate, split_individual]
  · norm_num

/-- C3: the claimed fitness formula fails because its EV under-SoC penalty
term is conditioned on a strictly positive shortfall while the source
adds it on shortfall ≤ 0. At horizon 1, `strafe = 10`, genome `[0, 2]`
(one idle battery hour, one non-zero EV gene), balance 7 €, final EV SoC
30 against target 80 (shortfall 50 > 0), battery 100 Wh at 0.5 €/Wh:
the source computes 7 + 0.01 + 0 + max(0, 500) − 50 = 457.01, whereas
the claimed formula gives 7 + 0.01 + 10·1 + 500 − 50 = 467.01. -/
theorem evaluate_fitness_formula_deviates :
    evaluate 1 10 0 false 80 (1 / 2) [0, 2]
        (some { gesamtbilanz := 7, verluste := 0, ev_soc := 30, akku_wh := 100 }) =
      (45701 / 100, some (7, 0, 50)) ∧ (45701 / 100 : ℚ) ≠ 46701 / 100 := by
  constructor
  · show (_, _) = _
    norm_num [evaluate, split_individual]
  · norm_num

/-- C7: whenever the simulation inside `evaluate_inner` fails (any
exception, modelled by `sim = none`), `evaluate` returns exactly the
sentinel fitness 100000.0 and does not populate the diagnostic tuple
`extra_data`. -/
theorem evaluate_exception_sentinel (prediction_hours : ℕ) (strafe : ℚ)
    (haushaltsgeraete : ℕ) (worst_case : Bool)
    (eauto_min_soc preis_euro_pro_wh_akku : ℚ) (individual : List ℤ) :
    evaluate prediction_hours strafe haushaltsgeraete worst_case eauto_min_soc
      preis_euro_pro_wh_akku individual none = (100000, none) := rfl

/-- Embedding of `optimization_problem.create_individual`
(class_optimize.py lines 86-98). The DEAP attribute samplers
(`attr_discharge_state = random.randint(-5, 1)`,
`attr_ev_charge_index = random.randint(0, len(possible_ev_charge_currents) - 1)`,
`attr_int = random.randint(start_hour, 23)`) are abstracted as
per-position oracles; their ranges are carried as hypotheses where a
theorem needs them. The EV gene block is appended only under
`if self.optimize_ev`, and the appliance gene only under
`if self.opti_param["haushaltsgeraete"] > 0`, exactly as in the source. -/
def create_individual (prediction_hours : ℕ) (optimize_ev : Bool) (haushaltsgeraete : ℕ)
    (attr_discharge_state attr_ev_charge_index : ℕ → ℤ) (attr_int : ℤ) : List ℤ :=
  ((List.range prediction_hours).map attr_discharge_state)
    ++ (if optimize_ev then (List.range prediction_hours).map attr_ev_charge_index else [])
    ++ (if 0 < haushaltsgeraete then [attr_int] else [])

/-- C4 counterexample: with EV optimization auto-disabled
(`optimize_ev = false`), horizon H = 2 and no appliance,
`create_individual` returns a genome of length 2, not 2·H = 4: the EV
gene region is NOT allocated when EV optimization is disabled. -/
theorem create_individual_skips_ev_region_cex :
    (create_individual 2 false 0 (fun _ => 0) (fun _ => 0) 0).length = 2 ∧
      (2 : ℕ) ≠ 2 * 2 := by
  constructor
  · rfl
  · decide

/-- C4 amended: every individual created by `create_individual` has length
H + (H if `optimize_ev` else 0) + (1 if an appliance is present else 0);
in particular the EV gene region is allocated only while `optimize_ev`
is true, and only the appliance gene is a static `+1`. -/
theorem create_individual_length (prediction_hours : ℕ) (optimize_ev : Bool)
    (haushaltsgeraete : ℕ) (attr_discharge_state attr_ev_charge_index : ℕ → ℤ)
    (attr_int : ℤ) :
    (create_individual prediction_hours optimize_ev haushaltsgeraete
        attr_discharge_state attr_ev_charge_index attr_int).length =
      prediction_hours + (if optimize_ev then prediction_hours else 0) +
        (if 0 < haushaltsgeraete then 1 else 0) := by
  unfold create_individual
  split_ifs <;> simp <;> omega

/-- Embedding of lines 313-315 of `optimierung_ems`:
`self.optimize_ev = True` followed by
`if parameter["eauto_min_soc"] - parameter["eauto_soc"] < 0: self.optimize_ev = False`.
The comparison in the source is strict. -/
def set_optimize_ev (eauto_min_soc eauto_soc : ℚ) : Bool :=
  if eauto_min_soc - eauto_soc < 0 then false else true

/-- The inputs that `optimization_problem.evaluate_inner`
(class_optimize.py lines 162-188) hands to the external EMS collaborator
before calling `ems.simuliere(start_hour)`: the normalized charge vector,
the discharge vector, the EV currents (`none` when
`ems.set_eauto_charge_hours` is never called because `optimize_ev` is
false), and the appliance start gene (`none` when no appliance). -/
structure SimInputs where
  charge : List NpF
  discharge : List ℤ
  ev_currents : Option (List ℚ)
  appliance_start : Option ℤ
deriving DecidableEq, Repr

/-- Embedding of `optimization_problem.evaluate_inner`
(class_optimize.py lines 162-188), up to the simulator call: the
decode/adapter stage. `possible_ev_charge_currents` comes from
`config.py`, outside the core source; it is passed as a parameter, and
Python's list indexing is modelled with `getD` (gene domain
[0, |I| − 1]). -/
def evaluate_inner (prediction_hours : ℕ) (optimize_ev : Bool) (haushaltsgeraete : ℕ)
    (possible_ev_charge_currents : List ℚ) (individual : List ℤ) : SimInputs :=
  let s := split_individual prediction_hours haushaltsgeraete individual
  let cd := split_charge_discharge s.1
  { charge := cd.1
    discharge := cd.2
    ev_currents :=
      if optimize_ev then
        some (s.2.1.map (fun i => possible_ev_charge_currents.getD i.toNat 0))
      else none
    appliance_start := if 0 < haushaltsgeraete then s.2.2 else none }

/-- C6 counterexample. (a) At the boundary `eauto_min_soc = eauto_soc = 50`
the source's strict test `eauto_min_soc - eauto_soc < 0` does NOT fire,
so `optimize_ev` stays true, although the claim ("disabled exactly when
ev_min_soc ≤ ev_start_soc") requires it to be disabled there. (b) Even
when EV optimization IS disabled (target 40 < start 50), the EV penalty
term of the fitness need not be zero: with an appliance the genome has
length H + 1, the slice `individual[H:2H]` holds the appliance start
gene (here 5 ≠ 0), the shortfall −10 is ≤ 0, and `evaluate` adds one
`strafe` = 10. -/
theorem set_optimize_ev_boundary_cex :
    (set_optimize_ev 50 50 = true ∧ (50 : ℚ) ≤ 50) ∧
      (set_optimize_ev 40 50 = false ∧
        evaluate 1 10 1 false 40 0 [1, 5]
            (some { gesamtbilanz := 0, verluste := 0, ev_soc := 50, akku_wh := 0 }) =
          (10, some (0, 0, -10))) := by
  refine ⟨⟨by norm_num [set_optimize_ev], by norm_num⟩,
    by norm_num [set_optimize_ev], ?_⟩
  show (_, _) = _
  norm_num [evaluate, split_individual]

/-- C6 amended: EV optimization is auto-disabled exactly when
`eauto_min_soc < eauto_soc` (strictly, so it stays enabled at equality);
and when it is disabled, `evaluate_inner` never calls
`ems.set_eauto_charge_hours`, i.e. no EV currents at all are passed to
the simulation. (The fitness "EV penalty" summation, by contrast, still
runs over the slice `individual[H:2H]` — see the counterexample.) -/
theorem set_optimize_ev_strict_and_frozen :
    ∀ eauto_min_soc eauto_soc : ℚ,
      (set_optimize_ev eauto_min_soc eauto_soc = false ↔ eauto_min_soc < eauto_soc) ∧
      ∀ (prediction_hours haushaltsgeraete : ℕ) (currents : List ℚ) (individual : List ℤ),
        (evaluate_inner prediction_hours false haushaltsgeraete currents
            individual).ev_currents = none := by
  intro m s
  constructor
  · unfold set_optimize_ev
    split_ifs with h
    · simpa using sub_neg.mp h
    · simpa using not_lt.mp (fun hlt => h (sub_neg.mpr hlt))
  · intro _ _ _ _
    rfl

/-- The value of `parameter["start_solution"]` as tested by
`optimize` (class_optimize.py line 259): Python's
`start_solution not in [None, -1]` distinguishes `None`, the integer
`-1`, and an actual genome list. -/
inductive StartSolution where
  | null : StartSolution
  | minusOne : StartSolution
  | sol : List ℤ → StartSolution

/-- Embedding of the start-solution injection in `optimization_problem.optimize`
(class_optimize.py lines 258-261):
`if start_solution not in [None, -1]: for _ in range(3): population.insert(0, creator.Individual(start_solution))`.
Each `insert(0, ·)` prepends, so three copies end up at the head of the
initial population; no other check (in particular no length check) is
performed. -/
def insert_start_solution (start_solution : StartSolution)
    (population : List (List ℤ)) : List (List ℤ) :=
  match start_solution with
  | .null => population
  | .minusOne => population
  | .sol xs => xs :: xs :: xs :: population

/-- C8 counterexample: a start solution of the wrong genome length
(here `[1, 2]` against a population of genomes of length 4) is NOT
rejected: `optimize` inserts its three copies at the head of the
population handed to the evolution loop. -/
theorem start_solution_wrong_length_not_rejected_cex :
    insert_start_solution (StartSolution.sol [1, 2]) [[0, 0, 0, 0]] =
        [[1, 2], [1, 2], [1, 2], [0, 0, 0, 0]] ∧
      ([1, 2] : List ℤ).length ≠ 4 := by
  exact ⟨rfl, by decide⟩

/-- C8 amended: no length validation is performed on a caller-supplied
start solution; every start solution other than `None` and `-1` —
whatever its length — has exactly three copies inserted at the head of
the initial population before the evolution loop. -/
theorem start_solution_three_copies :
    ∀ (xs : List ℤ) (population : List (List ℤ)),
      insert_start_solution (StartSolution.sol xs) population =
        xs :: xs :: xs :: population :=
  fun _ _ => rfl

/-- C10: `optimize` treats a start solution equal to the integer `-1`
exactly like `None` (Python's `start_solution not in [None, -1]`): in
both cases the population is unchanged, while any genome value has three
copies inserted at the head. -/
theorem start_solution_minus_one_like_none :
    ∀ (population : List (List ℤ)) (xs : List ℤ),
      insert_start_solution StartSolution.null population = population ∧
      insert_start_solution StartSolution.minusOne population = population ∧
      insert_start_solution (StartSolution.sol xs) population =
        xs :: xs :: xs :: population :=
  fun _ _ => ⟨rfl, rfl, rfl⟩

/-- Modelled from the spec: DEAP's `tools.mutUniformInt` (an external
library operator, registered at class_optimize.py lines 151-155)
resamples each position independently with probability `indpb` uniformly
in `[low, up]`. The random stream is abstracted into a per-position
decision oracle `pick` and a value oracle `sample`; the range
`[low, up]` of `sample` is carried as a hypothesis where a theorem needs
it. -/
def mutUniformInt (pick : ℕ → Bool) (sample : ℕ → ℤ) (xs : List ℤ) : List ℤ :=
  (List.range xs.length).map (fun i => if pick i then sample i else xs.getD i 0)

lemma mutUniformInt_length (pick : ℕ → Bool) (sample : ℕ → ℤ) (xs : List ℤ) :
    (mutUniformInt pick sample xs).length = xs.length := by
  simp [mutUniformInt]

lemma mutUniformInt_getD (pick : ℕ → Bool) (sample : ℕ → ℤ) (xs : List ℤ) (i : ℕ)
    (h : i < xs.length) :
    (mutUniformInt pick sample xs).getD i 0 =
      if pick i then sample i else xs.getD i 0 := by
  simp [mutUniformInt, List.getD_eq_getElem?_getD, List.getElem?_range h]

/-- Embedding of `optimization_problem.mutate` (class_optimize.py lines
64-83), in-place slice updates rendered functionally:

* `individual[:H] = mutate_discharge(individual[:H])`;
* under `if self.optimize_ev`: `ev_charge_part = individual[H:2H]` is
  mutated, then
  `ev_charge_part_mutated[H - fixed_eauto_hours:] = [0] * fixed_eauto_hours`
  (Python slice assignment: the first `H - fixed_eauto_hours` entries
  survive and exactly `fixed_eauto_hours` zeros follow), and the result
  is written back to `individual[H:2H]`;
* under `if opti_param["haushaltsgeraete"] > 0`: `individual[-1]` is
  mutated by `mutate_hour` (a `mutUniformInt` on a singleton, abstracted
  by the oracles `pickH`/`sampleH`). -/
def mutate (prediction_hours fixed_eauto_hours : ℕ) (optimize_ev : Bool)
    (haushaltsgeraete : ℕ) (pickD : ℕ → Bool) (sampleD : ℕ → ℤ)
    (pickEv : ℕ → Bool) (sampleEv : ℕ → ℤ) (pickH : Bool) (sampleH : ℤ)
    (individual : List ℤ) : List ℤ :=
  let H := prediction_hours
  let ind1 := mutUniformInt pickD sampleD (individual.take H) ++ individual.drop H
  let ind2 :=
    if optimize_ev then
      let ev_charge_part := (ind1.drop H).take H
      let ev_mutated := mutUniformInt pickEv sampleEv ev_charge_part
      let ev_zeroed := ev_mutated.take (H - fixed_eauto_hours) ++
        List.replicate fixed_eauto_hours 0
      ind1.take H ++ ev_zeroed ++ ind1.drop (2 * H)
    else ind1
  if 0 < haushaltsgeraete then
    ind2.dropLast ++ [if pickH then sampleH else ind2.getLastD 0]
  else ind2

/-- Modelled from the spec: DEAP's `tools.cxTwoPoint` (registered as
`mate` at class_optimize.py line 147) swaps the slice
`[cxpoint1, cxpoint2)` between the two parents; the randomly drawn cut
points are parameters here. Only the first child is examined below. -/
def cxTwoPoint (cxpoint1 cxpoint2 : ℕ) (ind1 ind2 : List ℤ) : List ℤ × List ℤ :=
  (ind1.take cxpoint1 ++ (ind2.drop cxpoint1).take (cxpoint2 - cxpoint1) ++
     ind1.drop cxpoint2,
   ind2.take cxpoint1 ++ (ind1.drop cxpoint1).take (cxpoint2 - cxpoint1) ++
     ind2.drop cxpoint2)

lemma cxTwoPoint_fst_getD (cxpoint1 cxpoint2 : ℕ) (a b : List ℤ) (i : ℕ)
    (h12 : cxpoint1 ≤ cxpoint2) (h2 : cxpoint2 ≤ a.length) (hab : a.length = b.length) :
    (cxTwoPoint cxpoint1 cxpoint2 a b).1.getD i 0 = a.getD i 0 ∨
      (cxTwoPoint cxpoint1 cxpoint2 a b).1.getD i 0 = b.getD i 0 := by
  have hta : (a.take cxpoint1).length = cxpoint1 :=
    List.length_take_of_le (le_trans h12 h2)
  have htm : ((b.drop cxpoint1).take (cxpoint2 - cxpoint1)).length =
      cxpoint2 - cxpoint1 := by
    rw [List.length_take, List.length_drop]
    omega
  have hX : (a.take cxpoint1 ++ (b.drop cxpoint1).take (cxpoint2 - cxpoint1)).length =
      cxpoint2 := by
    rw [List.length_append, hta, htm]
    omega
  rcases lt_or_le i cxpoint1 with hi | hi
  · left
    simp only [cxTwoPoint]
    rw [List.getD_eq_getElem?_getD, List.getElem?_append_left (by omega),
      List.getElem?_append_left (by omega), List.getElem?_take_of_lt hi,
      ← List.getD_eq_getElem?_getD]
  · rcases lt_or_le i cxpoint2 with hi2 | hi2
    · right
      simp only [cxTwoPoint]
      rw [List.getD_eq_getElem?_getD, List.getElem?_append_left (by omega),
        List.getElem?_append_right (by omega), hta,
        List.getElem?_take_of_lt (by omega), List.getElem?_drop]
      have he : cxpoint1 + (i - cxpoint1) = i := by omega
      rw [he, ← List.getD_eq_getElem?_getD]
    · left
      simp only [cxTwoPoint]
      rw [List.getD_eq_getElem?_getD, List.getElem?_append_right (by omega), hX,
        List.getElem?_drop]
      have he : cxpoint2 + (i - cxpoint2) = i := by omega
      rw [he, ← List.getD_eq_getElem?_getD]

lemma mutate_decomp (H t h : ℕ) (pickD : ℕ → Bool) (sampleD : ℕ → ℤ)
    (pickEv : ℕ → Bool) (sampleEv : ℕ → ℤ) (pickH : Bool) (sampleH : ℤ)
    (ind : List ℤ)
    (hlen : ind.length = 2 * H + (if 0 < h then 1 else 0)) :
    mutate H t true h pickD sampleD pickEv sampleEv pickH sampleH ind =
      (mutUniformInt pickD sampleD (ind.take H) ++
        ((mutUniformInt pickEv sampleEv ((ind.drop H).take H)).take (H - t) ++
          List.replicate t 0)) ++
        (if 0 < h then [if pickH then sampleH else ind.getLastD 0] else []) := by
  have h2H : 2 * H ≤ ind.length := by
    by_cases hh : 0 < h <;> simp [hh] at hlen <;> omega
  have hd : (mutUniformInt pickD sampleD (ind.take H)).length = H := by
    rw [mutUniformInt_length, List.length_take]
    omega
  have htake : (mutUniformInt pickD sampleD (ind.take H) ++ ind.drop H).take H =
      mutUniformInt pickD sampleD (ind.take H) := List.take_left' hd
  have hdrop : (mutUniformInt pickD sampleD (ind.take H) ++ ind.drop H).drop H =
      ind.drop H := List.drop_left' hd
  have hdrop2 : (mutUniformInt pickD sampleD (ind.take H) ++ ind.drop H).drop (2 * H) =
      ind.drop (2 * H) := by
    rw [two_mul, ← List.drop_drop, hdrop, List.drop_drop]
  by_cases hh : 0 < h
  · simp only [hh, if_true] at hlen ⊢
    obtain ⟨c, hc⟩ := List.length_eq_one.mp
      (show (ind.drop (2 * H)).length = 1 by rw [List.length_drop, hlen]; omega)
    have hlast : ind.getLastD 0 = c := by
      conv_lhs => rw [← List.take_append_drop (2 * H) ind, hc]
      exact List.getLastD_concat 0 c _
    simp only [mutate, if_true, hh, htake, hdrop, hdrop2, hc, hlast]
    rw [← List.append_assoc, List.dropLast_concat, List.getLastD_concat]
  · simp only [hh, if_false] at hlen ⊢
    have hnil : ind.drop (2 * H) = [] := List.drop_eq_nil_of_le (by omega)
    simp only [mutate, if_true, hh, htake, hdrop, hdrop2, hnil, if_false,
      List.append_nil]

/-- C5 counterexample: the locked-tail invariant is not enforced outside
mutation. With H = 2 and `fixed_eauto_hours = 1` the locked tail is
position 3. (a) `create_individual` samples every EV gene from
`randint(0, len(possible_ev_charge_currents) - 1)` without zeroing the
tail: with the legal draw 1 at every EV position the fresh genome is
`[0, 0, 1, 1]`, whose locked-tail gene is 1 ≠ 0. (b) `mate` is plain
`tools.cxTwoPoint` with no repair: parents carrying 5 in the locked tail
produce a child still carrying 5 there. -/
theorem locked_tail_not_zeroed_cex :
    (create_individual 2 true 0 (fun _ => 0) (fun _ => 1) 0 = [0, 0, 1, 1] ∧
        (create_individual 2 true 0 (fun _ => 0) (fun _ => 1) 0).getD 3 0 ≠ 0) ∧
      ((cxTwoPoint 0 1 [0, 2, 0, 5] [1, 0, 0, 5]).1 = [1, 2, 0, 5] ∧
        (cxTwoPoint 0 1 [0, 2, 0, 5] [1, 0, 0, 5]).1.getD 3 0 ≠ 0) := by
  refine ⟨⟨by decide, by decide⟩, ⟨by decide, by decide⟩⟩

/-- C5 amended: `mutate` (with EV optimization on, on a genome of the
layout the codec produces) keeps every gene in its declared domain and
re-zeros the EV locked tail `[2H − fixed_eauto_hours, 2H)`; concretely,
the battery-action region takes either the old gene or the
`mutate_discharge` sample, the mutable EV region takes either the old
gene or the `mutate_ev_charge_index` sample, and the locked tail is the
zero vector. Initialization samples each gene from its domain but does
NOT zero the locked tail, and two-point crossover performs no repair —
it only ever copies a gene of one of the two parents at the same
position (so per-position domains are preserved). -/
theorem mutate_locked_tail_and_domains :
    ∀ (prediction_hours fixed_eauto_hours haushaltsgeraete : ℕ)
      (pickD : ℕ → Bool) (sampleD : ℕ → ℤ) (pickEv : ℕ → Bool) (sampleEv : ℕ → ℤ)
      (pickH : Bool) (sampleH : ℤ) (individual : List ℤ),
      fixed_eauto_hours ≤ prediction_hours →
      individual.length =
        2 * prediction_hours + (if 0 < haushaltsgeraete then 1 else 0) →
      (((mutate prediction_hours fixed_eauto_hours true haushaltsgeraete pickD sampleD
            pickEv sampleEv pickH sampleH individual).drop
              (2 * prediction_hours - fixed_eauto_hours)).take fixed_eauto_hours =
          List.replicate fixed_eauto_hours 0) ∧
      (∀ i < prediction_hours,
        (mutate prediction_hours fixed_eauto_hours true haushaltsgeraete pickD sampleD
            pickEv sampleEv pickH sampleH individual).getD i 0 =
          if pickD i then sampleD i else individual.getD i 0) ∧
      (∀ i, prediction_hours ≤ i → i < 2 * prediction_hours - fixed_eauto_hours →
        (mutate prediction_hours fixed_eauto_hours true haushaltsgeraete pickD sampleD
            pickEv sampleEv pickH sampleH individual).getD i 0 =
          if pickEv (i - prediction_hours) then sampleEv (i - prediction_hours)
          else individual.getD i 0) ∧
      (∀ (cxpoint1 cxpoint2 : ℕ) (parent1 parent2 : List ℤ) (i : ℕ),
        cxpoint1 ≤ cxpoint2 → cxpoint2 ≤ parent1.length →
        parent1.length = parent2.length →
        (cxTwoPoint cxpoint1 cxpoint2 parent1 parent2).1.getD i 0 =
            parent1.getD i 0 ∨
          (cxTwoPoint cxpoint1 cxpoint2 parent1 parent2).1.getD i 0 =
            parent2.getD i 0) := by
  intro H t h pickD sampleD pickEv sampleEv pickH sampleH ind ht hlen
  have hdec := mutate_decomp H t h pickD sampleD pickEv sampleEv pickH sampleH ind hlen
  have h2H : 2 * H ≤ ind.length := by
    by_cases hh : 0 < h <;> simp [hh] at hlen <;> omega
  have hA : (mutUniformInt pickD sampleD (ind.take H)).length = H := by
    rw [mutUniformInt_length, List.length_take]
    omega
  have hEv : ((ind.drop H).take H).length = H := by
    rw [List.length_take, List.length_drop]
    omega
  have hB : ((mutUniformInt pickEv sampleEv ((ind.drop H).take H)).take (H - t)).length =
      H - t := by
    rw [List.length_take, mutUniformInt_length, hEv]
    omega
  have hABR : (mutUniformInt pickD sampleD (ind.take H) ++
      ((mutUniformInt pickEv sampleEv ((ind.drop H).take H)).take (H - t) ++
        List.replicate t 0)).length = 2 * H := by
    rw [List.length_append, List.length_append, hA, hB, List.length_replicate]
    omega
  refine ⟨?_, ?_, ?_, ?_⟩
  · have e1 : (mutUniformInt pickD sampleD (ind.take H) ++
        ((mutUniformInt pickEv sampleEv ((ind.drop H).take H)).take (H - t) ++
          List.replicate t 0)) ++
        (if 0 < h then [if pickH then sampleH else ind.getLastD 0] else []) =
        (mutUniformInt pickD sampleD (ind.take H) ++
          (mutUniformInt pickEv sampleEv ((ind.drop H).take H)).take (H - t)) ++
        (List.replicate t 0 ++
          (if 0 < h then [if pickH then sampleH else ind.getLastD 0] else [])) := by
      simp [List.append_assoc]
    rw [hdec, e1, List.drop_left' (by rw [List.length_append, hA, hB]; omega),
      List.take_left' (List.length_replicate t 0)]
  · intro i hi
    rw [hdec, List.getD_eq_getElem?_getD,
      List.getElem?_append_left (by rw [hABR]; omega),
      List.getElem?_append_left (by rw [hA]; omega),
      ← List.getD_eq_getElem?_getD,
      mutUniformInt_getD _ _ _ _ (by rw [List.length_take]; omega),
      List.getD_eq_getElem?_getD (ind.take H), List.getElem?_take_of_lt hi,
      ← List.getD_eq_getElem?_getD]
  · intro i hiH hi
    rw [hdec, List.getD_eq_getElem?_getD,
      List.getElem?_append_left (by rw [hABR]; omega),
      List.getElem?_append_right (by rw [hA]; omega), hA,
      List.getElem?_append_left (by rw [hB]; omega),
      List.getElem?_take_of_lt (by omega),
      ← List.getD_eq_getElem?_getD,
      mutUniformInt_getD _ _ _ _ (by rw [hEv]; omega),
      List.getD_eq_getElem?_getD ((ind.drop H).take H),
      List.getElem?_take_of_lt (by omega), List.getElem?_drop]
    have he : H + (i - H) = i := by omega
    rw [he, ← List.getD_eq_getElem?_getD]
  · intro c1 c2 a b i h12 h2 hab
    exact cxTwoPoint_fst_getD c1 c2 a b i h12 h2 hab

/-- C5 witness: the amended theorem instantiated at H = 2,
`fixed_eauto_hours = 1`, no appliance, trivial oracles and the genome
`[0, 1, 2, 3]`: the mutated genome carries 0 in the locked tail
position. -/
theorem mutate_locked_tail_and_domains_witness :
    ((mutate 2 1 true 0 (fun _ => false) (fun _ => 0) (fun _ => false) (fun _ => 0)
        false 0 [0, 1, 2, 3]).drop (2 * 2 - 1)).take 1 = List.replicate 1 0 :=
  (mutate_locked_tail_and_domains 2 1 0 (fun _ => false) (fun _ => 0)
    (fun _ => false) (fun _ => 0) false 0 [0, 1, 2, 3] (by decide) (by decide)).1

/-- The fields of the `parameter` dict that `optimierung_ems` reads on the
paths modelled here. The purely physical inputs (capacities, forecasts,
prices) are consumed only by the external battery/EMS collaborators and
are therefore absorbed into the `evolve` and `simuliere` parameters of
`optimierung_ems`. -/
structure EmsParams where
  eauto_min_soc : ℚ
  eauto_soc : ℚ
  haushaltsgeraet_dauer : ℤ
  start_solution : StartSolution

/-- The dictionary returned by `optimierung_ems` (class_optimize.py lines
408-416); `result` and `simulation_data` are the same object `o` in the
source, represented once, by one representative post-processed per-hour
series; `eauto_obj` is a snapshot of external state and is omitted. -/
structure EmsResult where
  discharge_hours_bin : List ℤ
  eautocharge_hours_float : List ℤ
  result : List (Option NpF)
  start_solution : List ℤ
  spuelstart : Option ℤ

/-- Post-processing of each per-hour outcome array (class_optimize.py
lines 380-405): the first element is replaced by `None`, and every NaN
is replaced by `None` for JSON. In the source the first element is
nulled before the NaN sweep; since the sweep maps `None` to itself, the
composite equals mapping first and then setting index 0. -/
def postprocess_series (xs : List NpF) : List (Option NpF) :=
  (xs.map (fun x => if x = NpF.nan then none else some x)).set 0 none

/-- Embedding of `optimization_problem.optimierung_ems`
(class_optimize.py lines 287-416) along the paths the claims need:
set `optimize_ev` from the SoC deficit (lines 313-315), derive the
appliance flag from `haushaltsgeraet_dauer > 0` (lines 328-336), inject
the start solution (via `optimize`, lines 258-261), run the evolutionary
loop, re-run `evaluate_inner` on the winner, post-process the outcome
arrays and repackage. External collaborators are parameters: `evolve`
abstracts `setup_deap_environment` plus the DEAP μ+λ loop of `optimize`
(its randomness included), and `simuliere` abstracts `ems.simuliere` on
the final inputs. The `startdate` argument is declared in the source
with the comment "startdate is not used!" and indeed never occurs in the
body. -/
def optimierung_ems (prediction_hours : ℕ) (p : EmsParams)
    (start_hour : ℤ) (worst_case : Bool) (startdate : Option ℤ) (ngen : ℕ)
    (possible_ev_charge_currents : List ℚ) (population : List (List ℤ))
    (evolve : Bool → ℕ → List (List ℤ) → List ℤ)
    (simuliere : ℤ → SimInputs → List NpF) : EmsResult :=
  let optimize_ev := set_optimize_ev p.eauto_min_soc p.eauto_soc
  let haushaltsgeraete : ℕ := if 0 < p.haushaltsgeraet_dauer then 1 else 0
  let pop := insert_start_solution p.start_solution population
  let best := evolve worst_case ngen pop
  let o := simuliere start_hour
    (evaluate_inner prediction_hours optimize_ev haushaltsgeraete
      possible_ev_charge_currents best)
  let s := split_individual prediction_hours haushaltsgeraete best
  { discharge_hours_bin := s.1
    eautocharge_hours_float := s.2.1
    result := postprocess_series o
    start_solution := best
    spuelstart := s.2.2 }

/-- C9: `optimierung_ems` never reads its `startdate` argument, so two
calls that differ only in `startdate` — all other parameters, the
population randomness and the external collaborators identical — return
identical result dictionaries. -/
theorem optimierung_ems_startdate_irrelevant
    (prediction_hours : ℕ) (p : EmsParams) (start_hour : ℤ) (worst_case : Bool)
    (startdate1 startdate2 : Option ℤ) (ngen : ℕ)
    (possible_ev_charge_currents : List ℚ) (population : List (List ℤ))
    (evolve : Bool → ℕ → List (List ℤ) → List ℤ)
    (simuliere : ℤ → SimInputs → List NpF) :
    optimierung_ems prediction_hours p start_hour worst_case startdate1 ngen
        possible_ev_charge_currents population evolve simuliere =
      optimierung_ems prediction_hours p start_hour worst_case startdate2 ngen
        possible_ev_charge_currents population evolve simuliere := rfl
